import Mathlib

/-!
Verification of the schema-definition and SQL-synthesis engine of
`src/db/base.py`: column descriptors, the table-level SQL builder,
the database gateway and the model/queryset facade, embedded shallowly
as executable Lean definitions.
-/

deriving instance DecidableEq for Except

namespace EmailingServer

/-- The Python exceptions the engine raises. -/
inductive PyError where
  | valueError (msg : String)
  | attributeError (msg : String)
  deriving Repr, DecidableEq

/-- Column descriptor: the `Field` dataclass of `src/db/base.py` — name,
length, type-family flags, `not_null`, optional default and `primary_key`. -/
structure Field where
  name : String
  max_length : Nat := 100
  var_char : Bool := false
  not_null : Bool := false
  integer : Bool := false
  decimal : Bool := false
  boolean : Bool := false
  default : Option String := none
  primary_key : Bool := false
  deriving Repr, DecidableEq

/-- Python `==` between two `Field` dataclass instances: `a == b` runs
`Field.__eq__(a, b)`, i.e. `a.name == b`; comparing the string `a.name` to
the `Field` `b` returns `NotImplemented` on the string side and falls back
to the reflected `Field.__eq__(b, a.name)`, i.e. `b.name == a.name`. So two
descriptors compare equal exactly when their names are equal. -/
def fieldEq (a b : Field) : Bool := a.name == b.name

/-- `Field.__hash__` hashes the pair `(name, primary_key)`; modelled by the
pair itself. -/
def fieldHashKey (f : Field) : String × Bool := (f.name, f.primary_key)

/-- `CharField(name)`: a `Field` with `var_char=True`. -/
def CharField (name : String) : Field := { name := name, var_char := true }

/-- `IntegerField(name)`: a `Field` with `integer=True`. -/
def IntegerField (name : String) : Field := { name := name, integer := true }

/-- `BooleanField(name)`: a `Field` with `boolean=True`. -/
def BooleanField (name : String) : Field := { name := name, boolean := true }

/-- The slice of a `BaseModel` a relationship descriptor reads: its
`model_name`. -/
structure ModelRef where
  model_name : String
  deriving Repr, DecidableEq

/-- Relationship descriptors: the `ForeignKey` and `ManyToMany` dataclasses,
which carry only the target model (no `name` attribute). -/
inductive Relationship where
  | foreignKey (model : ModelRef)
  | manyToMany (model : ModelRef)
  deriving Repr, DecidableEq

/-- The `model` attribute of a relationship dataclass. -/
def Relationship.model : Relationship → ModelRef
  | .foreignKey m => m
  | .manyToMany m => m

/-- The Python class name of a relationship, as it appears in the
`AttributeError` message text. -/
def Relationship.className : Relationship → String
  | .foreignKey _ => "ForeignKey"
  | .manyToMany _ => "ManyToMany"

/-- An element of a declared field list: a column (`Field` subclass
instance) or a relationship descriptor. All constructors model dataclass
instances, so `Table.check_fields`'s dataclass test always passes. -/
inductive FieldSpec where
  | col (f : Field)
  | rel (r : Relationship)
  deriving Repr, DecidableEq

/-- Reading the `name` attribute of a list element: columns have one;
relationship dataclasses declare only `model`, so Python raises
`AttributeError`. -/
def FieldSpec.pyName : FieldSpec → Except PyError String
  | .col f => Except.ok f.name
  | .rel r =>
      Except.error (PyError.attributeError
        ("'" ++ r.className ++ "' object has no attribute 'name'"))

/-- Single-character membership, Python `c in s` for a one-character
needle. (List-based so the kernel can evaluate it.) -/
def strContainsChar (s : String) (c : Char) : Bool := s.data.contains c

/-- Substring containment over character lists (structural, so the kernel
can evaluate it). -/
def listContainsSub (pat : List Char) : List Char → Bool
  | [] => pat.isEmpty
  | c :: cs => pat.isPrefixOf (c :: cs) || listContainsSub pat cs

/-- Python substring containment `frag in s`. -/
def strContainsSub (s frag : String) : Bool := listContainsSub frag.data s.data

/-- `SQL.finalize_sql`: append `;` unless one already occurs anywhere in
the string (Python `';' in sql` is a contains-anywhere check). -/
def finalize_sql (sql : String) : String :=
  if strContainsChar sql ';' then sql else sql ++ ";"

/-- `SQL.quote`: wrap in single quotes, no escaping. -/
def quote (value : String) : String := "'" ++ value ++ "'"

/-- An element of the `sql_maps` list handed to `SQL.join_partials`: Python
passes either a bare string or a list of SQL tokens. -/
inductive SqlItem where
  | str (s : String)
  | lst (l : List String)
  deriving Repr, DecidableEq

/-- The normalization loop of `join_partials`: a bare string becomes a
one-token list. -/
def SqlItem.tokens : SqlItem → List String
  | .str s => [s]
  | .lst l => l

/-- `SQL.join_partials`: normalize, drop (when `is_create`) any element
whose token list contains the literal token `id`, join each element's
tokens with spaces and the elements with `, `. -/
def join_partials (sql_maps : List SqlItem) (is_create : Bool) : String :=
  let formatted := sql_maps.map SqlItem.tokens
  let kept := formatted.filter (fun m => !(is_create && m.contains "id"))
  String.intercalate ", " (kept.map (fun m => String.intercalate " " m))

/-- One pass of `str.replace`-style substitution over character lists,
with fuel for structural recursion. -/
def replaceFuel (pat sub : List Char) : Nat → List Char → List Char
  | _, [] => []
  | 0, l => l
  | Nat.succ n, c :: cs =>
      if pat.isPrefixOf (c :: cs) then
        sub ++ replaceFuel pat sub n (cs.drop (pat.length - 1))
      else c :: replaceFuel pat sub n cs

/-- Substitute every occurrence of one `str.format` placeholder: the
behaviour of Python `s.format(...)` on a template whose only brace groups
are the given placeholder. -/
def pyFormat (s pat sub : String) : String :=
  String.mk (replaceFuel pat.data sub.data s.data.length s.data)

/-- Ordered-mapping assignment `m[k] = v` of an `OrderedDict`: update in
place when the key exists, else append. -/
def odSet {A : Type} (m : List (String × A)) (k : String) (v : A) :
    List (String × A) :=
  if m.any (fun p => p.1 == k) then
    m.map (fun p => if p.1 == k then (k, v) else p)
  else m ++ [(k, v)]

/-- Ordered-mapping lookup `m[k]`, `none` for a missing key. -/
def odGet {A : Type} (m : List (String × A)) (k : String) : Option A :=
  (m.find? (fun p => p.1 == k)).map (fun p => p.2)

/-- The mutable state of a `Table` instance: its name, the field list
cached by `check_fields`, and the two ordered name-to-descriptor maps. -/
structure Table where
  table_name : String
  cached_fields : List FieldSpec := []
  field_map : List (String × Field) := []
  relationship_field_map : List (String × Relationship) := []
  deriving Repr, DecidableEq

/-- `Table(name)`. -/
def mkTable (name : String) : Table := { table_name := name }

/-- `Table.fields_count`: `len(self._cached_fields) - 1` (Python integer
arithmetic, so an empty cache gives `-1`). -/
def fields_count (t : Table) : Int := (t.cached_fields.length : Int) - 1

/-- `list(map(lambda x: x.name, fields))`: names collected left to right,
the first exception propagating. -/
def pyNames : List FieldSpec → Except PyError (List String)
  | [] => Except.ok []
  | f :: fs =>
      match FieldSpec.pyName f with
      | Except.error e => Except.error e
      | Except.ok n =>
          match pyNames fs with
          | Except.error e => Except.error e
          | Except.ok ns => Except.ok (n :: ns)

/-- `Table.field_names`: `name` mapped over every cached field; the first
relationship descriptor in the list raises `AttributeError`, since those
dataclasses have no `name` attribute. -/
def field_names (t : Table) : Except PyError (List String) :=
  pyNames t.cached_fields

/-- `Table.has_relationships`. -/
def has_relationships (t : Table) : Bool :=
  !t.relationship_field_map.isEmpty

/-- `Table.check_fields`: every modelled element is a dataclass, so the
`ValueError` branch is unreachable and the list is cached. -/
def check_fields (t : Table) (fields : List FieldSpec) : Table :=
  { t with cached_fields := fields }

/-- `Table.add_arguments`: type clause from the first set flag, then
`NOT NULL`, then `serial PRIMARY KEY`, then the quoted default. -/
def add_arguments (field : Field) (sql_map : List String) : List String :=
  let m1 :=
    if field.var_char then
      sql_map ++ ["varchar(" ++ toString field.max_length ++ ")"]
    else if field.integer then sql_map ++ ["integer"]
    else if field.decimal then sql_map ++ ["decimal"]
    else if field.boolean then sql_map ++ ["boolean"]
    else sql_map
  let m2 := if field.not_null then m1 ++ ["NOT NULL"] else m1
  let m3 := if field.primary_key then m2 ++ ["serial", "PRIMARY KEY"] else m2
  match field.default with
  | some d => m3 ++ ["DEFAULT " ++ quote d]
  | none => m3

/-- `Table.prepare_field`. -/
def prepare_field (field : Field) : List String :=
  add_arguments field [field.name]

/-- `Table.get_sql_maps`: partition the list; a relationship is recorded
under `<table>_<target model>` in `relationship_field_map`, a column goes
into `field_map` and contributes a prepared token list. -/
def get_sql_maps (t : Table) (fields : List FieldSpec) :
    Table × List SqlItem :=
  fields.foldl
    (fun acc field =>
      match field with
      | FieldSpec.rel r =>
          let nm := acc.1.table_name ++ "_" ++ r.model.model_name
          ({ acc.1 with
              relationship_field_map := odSet acc.1.relationship_field_map nm r },
            acc.2)
      | FieldSpec.col f =>
          ({ acc.1 with field_map := odSet acc.1.field_map f.name f },
            acc.2 ++ [SqlItem.lst (prepare_field f)]))
    (t, [])

/-- The foreign-key template of `Table.add_constraints`; the braces are the
literal `str.format` placeholders of the source string. -/
def foreign_key_sql : String :=
  "\x7bfield_name\x7d_id INTEGER REFERENCES \x7breference_table\x7d(\x7bfield_name\x7d_id)"

/-- `Table.add_constraints`: append the (single) constraint template as one
more token-list element. -/
def add_constraints (sql_map : List SqlItem) (foreign_key : Bool) :
    List SqlItem :=
  let constraint_map := if foreign_key then [foreign_key_sql] else []
  sql_map ++ [SqlItem.lst constraint_map]

/-- The `CREATE TABLE IF NOT EXISTS {name} ({fields})` template applied to
its two arguments. -/
def create_table_fmt (name fields : String) : String :=
  "CREATE TABLE IF NOT EXISTS " ++ name ++ " (" ++ fields ++ ")"

/-- The `INSERT INTO {name} ({fields}) VALUES ({values})` template applied
to its three arguments. -/
def insert_into_table_fmt (name fields values : String) : String :=
  "INSERT INTO " ++ name ++ " (" ++ fields ++ ") VALUES (" ++ values ++ ")"

/-- `Table.new_table_sql`: cache the fields, build the per-column token
lists, and when a relationship is present append the constraint template
and fill its placeholders with the hardcoded `field_name='b'`,
`reference_table='a'` of the source (the TODO on lines 209-211 of
`src/db/base.py`). Returns the updated table state and the statement. -/
def new_table_sql (t : Table) (fields : List FieldSpec) : Table × String :=
  let t1 := check_fields t fields
  let s2 := get_sql_maps t1 fields
  if has_relationships s2.1 then
    let sql_maps2 := add_constraints s2.2 true
    let args0 := join_partials sql_maps2 false
    let args :=
      pyFormat (pyFormat args0 "\x7bfield_name\x7d" "b") "\x7breference_table\x7d" "a"
    (s2.1, finalize_sql (create_table_fmt s2.1.table_name args))
  else
    (s2.1, finalize_sql (create_table_fmt s2.1.table_name (join_partials s2.2 false)))

/-- `Table.insert_in_table_sql`: arity check against `fields_count` first,
then the id-suppressed column list from `field_names`, then the quoted
values. -/
def insert_in_table_sql (t : Table) (values : List String) :
    Except PyError String :=
  if (values.length : Int) = fields_count t then do
    let names ← field_names t
    let fields := join_partials (names.map SqlItem.str) true
    let vals := join_partials ((values.map quote).map SqlItem.str) false
    Except.ok (finalize_sql (insert_into_table_fmt t.table_name fields vals))
  else Except.error (PyError.valueError "There are more values than fields")

/-- The live connection: statements executed on the cursor but not yet
committed, and the committed statements. -/
structure Connection where
  pending : List String := []
  committed : List String := []
  deriving Repr, DecidableEq

/-- `connection.commit()`. -/
def commit (c : Connection) : Connection :=
  { pending := [], committed := c.committed ++ c.pending }

/-- `connection.rollback()`. -/
def rollback (c : Connection) : Connection :=
  { c with pending := [] }

/-- `cursor.execute(sql)`: the backend oracle `ok` says whether the
statement is accepted (joining the uncommitted work) or raises. -/
def cursorExecute (ok : String → Bool) (c : Connection) (sql : String) :
    Except PyError Connection :=
  if ok sql then Except.ok { c with pending := c.pending ++ [sql] }
  else Except.error (PyError.valueError "database error")

/-- `Database._execute_cursor`: `try` execute then commit; `except` any
exception rollback; the `finally: return cursor` returns normally from both
branches, so no exception ever escapes. The `Unit` stands for the returned
cursor object. -/
def _execute_cursor (ok : String → Bool) (c : Connection) (sql : String) :
    Except PyError (Connection × Unit) :=
  match (do
      let c2 ← cursorExecute ok c sql
      pure (commit c2) : Except PyError Connection) with
  | Except.ok c2 => Except.ok (c2, ())
  | Except.error _ => Except.ok (rollback c, ())

/-- The `Database` gateway state: the connection and the table registry
(an `OrderedDict` from table name to `Table`). -/
structure Database where
  conn : Connection := {}
  tables : List (String × Table) := []
  deriving Repr, DecidableEq

/-- `Database._create_table`: build a fresh `Table`, synthesize the CREATE
statement, and register the schema. The `self._execute_cursor(sql)` call is
commented out in the source (line 285), so nothing reaches the connection
and the `psycopg2.errors.DuplicateTable` handler is unreachable: the
`else` branch always registers the schema. -/
def _create_table (db : Database) (name : String) (fields : List FieldSpec) :
    Database :=
  let inst := mkTable name
  let s := new_table_sql inst fields
  { db with tables := odSet db.tables s.1.table_name s.1 }

/-- `Database.insert_into_table`: registry lookup (a missing key raises
`ValueError('Table does not exist')`), then statement synthesis (whose
exceptions propagate), then execution. -/
def insert_into_table (ok : String → Bool) (db : Database) (name : String)
    (values : List String) : Except PyError Database :=
  match odGet db.tables name with
  | none => Except.error (PyError.valueError "Table does not exist")
  | some table => do
      let sql ← insert_in_table_sql table values
      match _execute_cursor ok db.conn sql with
      | Except.ok st => Except.ok { db with conn := st.1 }
      | Except.error e => Except.error e

/-- The automatically inserted `Field('id', primary_key=True)`. -/
def idField : Field := { name := "id", primary_key := true }

/-- Python `'id' == f` for one list element: for a `Field` it resolves to
`f.name == 'id'` (reflected dataclass equality), for a relationship
dataclass to `False` (different class). -/
def isIdCol : FieldSpec → Bool
  | FieldSpec.col c => c.name == "id"
  | FieldSpec.rel _ => false

/-- Python `'id' in fields`: `in` tries `'id' == f` per element. -/
def hasIdField (fields : List FieldSpec) : Bool :=
  fields.any isIdCol

/-- The id-insertion step of `BaseModel.__init__`: prepend the primary-key
id column when no declared column is named `id`. -/
def ensure_id (fields : List FieldSpec) : List FieldSpec :=
  if hasIdField fields then fields else FieldSpec.col idField :: fields

/-- Python `str.lower` on the ASCII names this engine uses. -/
def pyLower (s : String) : String := String.mk (s.data.map Char.toLower)

/-- The state a `BaseModel` keeps. -/
structure BaseModel where
  model_name : String
  fields : List FieldSpec
  deriving Repr, DecidableEq

/-- `BaseModel.__init__`: lowercase the name, ensure the id column, and
eagerly create the table through the gateway (with the original `name`). -/
def baseModelInit (db : Database) (name : String) (fields : List FieldSpec) :
    Database × BaseModel :=
  let fields2 := ensure_id fields
  (_create_table db name fields2,
    { model_name := pyLower name, fields := fields2 })

/-- A psycopg2 cursor holding rows: `remaining` is what iteration still
yields, `drains` counts how many times `list(cursor)` consumed it. -/
structure PyCursor where
  remaining : List String := []
  drains : Nat := 0
  deriving Repr, DecidableEq

/-- `list(cursor)`: yield the remaining rows, leave the cursor exhausted,
record the drain. -/
def drainCursor (c : PyCursor) : List String × PyCursor :=
  (c.remaining, { remaining := [], drains := c.drains + 1 })

/-- The state of a `QuerySet`: its row cache. -/
structure QuerySet where
  cache : List String := []
  deriving Repr, DecidableEq

/-- `QuerySet.populate_cache`: `if not self._cache: self._cache =
list(self._model._cursor)`; a Python list is falsy exactly when empty, so
the guard passes again whenever the cache is still empty. -/
def populate_cache (qs : QuerySet) (c : PyCursor) : QuerySet × PyCursor :=
  if qs.cache.isEmpty then
    let s := drainCursor c
    ({ cache := s.1 }, s.2)
  else (qs, c)

/-- `QuerySet.count`: materialize, then the cache length. -/
def qs_count (qs : QuerySet) (c : PyCursor) : Nat × QuerySet × PyCursor :=
  let s := populate_cache qs c
  (s.1.cache.length, s.1, s.2)

/-- The declared field list of the `country` model. -/
def countryFields : List FieldSpec := [FieldSpec.col (CharField "name")]

/-- The `country` model as a relationship target. -/
def country : ModelRef := { model_name := "country" }

/-- The declared field list of the `cars` model. -/
def carsFields : List FieldSpec :=
  [FieldSpec.rel (Relationship.foreignKey country)]

/-- The `country` table state after `new_table_sql` ran during model
construction. -/
def countryTable : Table :=
  (new_table_sql (mkTable "country") (ensure_id countryFields)).1

/-- The `cars` table state after `new_table_sql` ran during model
construction. -/
def carsTable : Table :=
  (new_table_sql (mkTable "cars") (ensure_id carsFields)).1

/-- Splitting a list's length over a Boolean predicate. -/
theorem length_filter_split (p : FieldSpec → Bool) (l : List FieldSpec) :
    (l.filter p).length + (l.filter (fun f => !p f)).length = l.length := by
  induction l with
  | nil => rfl
  | cons f fs ih => cases hf : p f <;> simp [List.filter_cons, hf] <;> omega

/-- A list containing a relationship descriptor has no `name` column
listing: `pyNames` raises the `AttributeError` of the first such element. -/
theorem pyNames_error_of_rel (l : List FieldSpec) (r : Relationship)
    (h : FieldSpec.rel r ∈ l) :
    ∃ msg, pyNames l = Except.error (PyError.attributeError msg) := by
  induction l with
  | nil => cases h
  | cons f fs ih =>
      cases f with
      | col g =>
          have h2 : FieldSpec.rel r ∈ fs := by
            rcases List.mem_cons.mp h with h1 | h1
            · cases h1
            · exact h1
          obtain ⟨msg, hm⟩ := ih h2
          exact ⟨msg, by simp [pyNames, FieldSpec.pyName, hm]⟩
      | rel r2 =>
          exact ⟨"'" ++ r2.className ++ "' object has no attribute 'name'",
            by simp [pyNames, FieldSpec.pyName]⟩

/-- C4: for the model `country`, declared with the single variable-text
column `name` (default max length 100), `create_table_sql` (the
`new_table_sql` of the source) returns exactly
`CREATE TABLE IF NOT EXISTS country (id serial PRIMARY KEY, name varchar(100));`,
with the auto-added primary-key id column first and the declared columns in
order. -/
theorem country_create_table_sql :
    (new_table_sql (mkTable "country") (ensure_id countryFields)).2 =
      "CREATE TABLE IF NOT EXISTS country (id serial PRIMARY KEY, name varchar(100));" := by
  decide

/-- C5: on the `country` schema, `insert_sql(['France'])` returns exactly
`INSERT INTO country (name) VALUES ('France');` — the id column is dropped
from the column list, and the value is wrapped in plain single quotes. -/
theorem country_insert_sql_france :
    insert_in_table_sql countryTable ["France"] =
      Except.ok "INSERT INTO country (name) VALUES ('France');" := by
  decide

/-- C2 (the code at the claimed scenario): for the model `cars` with a
reference relationship to `country`, the synthesized statement fills the
constraint template with the hardcoded placeholders `b` and `a` of the
source's TODO instead of `cars_country` and `country`, so the claimed
fragment `cars_country_id INTEGER REFERENCES country(cars_country_id)`
does not occur in the output. -/
theorem cars_create_sql_placeholders :
    (new_table_sql (mkTable "cars") (ensure_id carsFields)).2 =
      "CREATE TABLE IF NOT EXISTS cars (id serial PRIMARY KEY, b_id INTEGER REFERENCES a(b_id));" ∧
    strContainsSub (new_table_sql (mkTable "cars") (ensure_id carsFields)).2
      "cars_country_id" = false := by
  decide

/-- C1 (the code at the claimed scenario): `_create_table` never touches
the connection — the `_execute_cursor(sql)` call is commented out in the
source, so the synthesized CREATE statement is not executed and the
duplicate-table branch is unreachable — while the schema is registered
unconditionally. -/
theorem create_table_never_executes :
    (_create_table { } "country" (ensure_id countryFields)).conn =
      ({ } : Connection) ∧
    odGet (_create_table { } "country" (ensure_id countryFields)).tables
      "country" = some countryTable := by
  decide

/-- C3: a table whose cached field list contains a relationship descriptor
fails `insert_in_table_sql` with an `AttributeError` on every values list
that passes the arity check, because `field_names` reads the `name`
attribute of every cached field and relationship dataclasses carry none;
so an insert on such a model can never succeed. -/
theorem relationship_insert_attribute_error (t : Table)
    (values : List String) (r : Relationship)
    (hr : FieldSpec.rel r ∈ t.cached_fields)
    (hlen : (values.length : Int) = fields_count t) :
    ∃ msg, insert_in_table_sql t values =
      Except.error (PyError.attributeError msg) := by
  obtain ⟨msg, hm⟩ := pyNames_error_of_rel t.cached_fields r hr
  refine ⟨msg, ?_⟩
  simp only [insert_in_table_sql, hlen, if_true, field_names, hm, if_pos]
  rfl

/-- C3 at the `cars` schema with an arity-correct values list. -/
theorem relationship_insert_attribute_error_witness :
    ∃ msg, insert_in_table_sql carsTable ["1"] =
      Except.error (PyError.attributeError msg) :=
  relationship_insert_attribute_error carsTable ["1"]
    (Relationship.foreignKey country) (by decide) (by decide)

/-- C6: when the targeted schema is registered and the values list's length
differs from its `fields_count`, the insert fails with the arity
`ValueError` before any SQL text is built and before anything is executed;
the error result carries no successor state, so connection, registry and
schema are unchanged. -/
theorem insert_arity_mismatch_fails (ok : String → Bool) (db : Database)
    (name : String) (values : List String) (t : Table)
    (ht : odGet db.tables name = some t)
    (hlen : (values.length : Int) ≠ fields_count t) :
    insert_into_table ok db name values =
      Except.error (PyError.valueError "There are more values than fields") := by
  simp only [insert_into_table, ht, insert_in_table_sql, hlen, if_false]
  rfl

/-- C6 at the registered `country` schema with an empty values list. -/
theorem insert_arity_mismatch_fails_witness :
    insert_into_table (fun _ => true)
      (_create_table { } "country" (ensure_id countryFields)) "country" [] =
      Except.error (PyError.valueError "There are more values than fields") :=
  insert_arity_mismatch_fails (fun _ => true)
    (_create_table { } "country" (ensure_id countryFields)) "country" []
    countryTable (by decide) (by decide)

/-- C7: for every declared field list holding at most one column named `id`
(the data model keeps column names unique within a table) and every
declaration order, after the id-insertion step of model construction the
schema's `fields_count` equals the number of declared elements other than
the id column. -/
theorem fields_count_nonid (t : Table) (declared : List FieldSpec)
    (h : (declared.filter isIdCol).length ≤ 1) :
    fields_count (check_fields t (ensure_id declared)) =
      ((declared.filter (fun f => !isIdCol f)).length : Int) := by
  have hsplit := length_filter_split isIdCol declared
  by_cases hid : hasIdField declared
  · have h1 : 1 ≤ (declared.filter isIdCol).length := by
      obtain ⟨x, hx, hpx⟩ := List.any_eq_true.mp hid
      have : x ∈ declared.filter isIdCol := List.mem_filter.mpr ⟨hx, hpx⟩
      have := List.length_pos.mpr (List.ne_nil_of_mem this)
      omega
    simp [ensure_id, hid, fields_count, check_fields]
    omega
  · have h0 : (declared.filter isIdCol).length = 0 := by
      rw [List.length_eq_zero, List.filter_eq_nil_iff]
      intro a ha
      exact fun hpa => hid (List.any_eq_true.mpr ⟨a, ha, hpa⟩)
    simp [ensure_id, hid, fields_count, check_fields]
    omega

/-- C7 at the `country` declaration. -/
theorem fields_count_nonid_witness :
    fields_count (check_fields (mkTable "x") (ensure_id countryFields)) =
      ((countryFields.filter (fun f => !isIdCol f)).length : Int) :=
  fields_count_nonid (mkTable "x") countryFields (by decide)

/-- C8: `_execute_cursor` never raises: for every backend outcome it
returns the cursor; a successful execution commits the statement, a failed
one rolls back leaving the committed state unchanged, and in both cases the
caller gets the same `ok`-shaped result, with no signal distinguishing
failure from success. -/
theorem execute_swallows_failures (ok : String → Bool) (c : Connection)
    (sql : String) :
    ∃ c2 : Connection, _execute_cursor ok c sql = Except.ok (c2, ()) ∧
      (ok sql = true → c2.committed = c.committed ++ c.pending ++ [sql] ∧
        c2.pending = []) ∧
      (ok sql = false → c2.committed = c.committed ∧ c2.pending = []) := by
  by_cases h : ok sql
  · refine ⟨commit { c with pending := c.pending ++ [sql] }, ?_, ?_, ?_⟩
    · simp [_execute_cursor, cursorExecute, h, Except.bind]
    · intro _
      simp [commit]
    · intro hf
      rw [h] at hf
      cases hf
  · refine ⟨rollback c, ?_, ?_, ?_⟩
    · simp [_execute_cursor, cursorExecute, h, Except.bind]
    · intro ht
      rw [ht] at h
      cases h rfl
    · intro _
      simp [rollback]

/-- C9 fails as stated: on a queryset whose first materialization drains an
empty cursor, the cache stays empty (a Python empty list is falsy), so the
second call drains the cursor again instead of reusing the cache. -/
theorem populate_cache_redrains_when_empty :
    (populate_cache ({ } : QuerySet) ({ } : PyCursor)).2.drains = 1 ∧
    (populate_cache (populate_cache ({ } : QuerySet) ({ } : PyCursor)).1
        (populate_cache ({ } : QuerySet) ({ } : PyCursor)).2).2.drains = 2 := by
  decide

/-- C9 amended: materialization drains the bound cursor exactly once and
caches the row sequence, and — provided that sequence is nonempty — every
repeated call reuses the cache and performs no further draining; when the
drained sequence is empty the cache stays empty and later calls drain the
exhausted cursor again. -/
theorem populate_cache_once_nonempty (qs : QuerySet) (c : PyCursor)
    (h0 : qs.cache = []) (h1 : c.remaining ≠ []) :
    (populate_cache qs c).1.cache = c.remaining ∧
    (populate_cache qs c).2.drains = c.drains + 1 ∧
    populate_cache (populate_cache qs c).1 (populate_cache qs c).2 =
      ((populate_cache qs c).1, (populate_cache qs c).2) := by
  simp [populate_cache, drainCursor, h0, h1]

/-- C9 amended at a one-row cursor. -/
theorem populate_cache_once_nonempty_witness :
    (populate_cache ({ } : QuerySet) { remaining := ["France"] }).1.cache =
      ["France"] ∧
    (populate_cache ({ } : QuerySet) { remaining := ["France"] }).2.drains = 1 ∧
    populate_cache
        (populate_cache ({ } : QuerySet) { remaining := ["France"] }).1
        (populate_cache ({ } : QuerySet) { remaining := ["France"] }).2 =
      ((populate_cache ({ } : QuerySet) { remaining := ["France"] }).1,
        (populate_cache ({ } : QuerySet) { remaining := ["France"] }).2) :=
  populate_cache_once_nonempty { } { remaining := ["France"] } rfl (by decide)

/-- C10 fails as stated: two descriptors with the same name but different
primary-key flags compare equal under the dataclass `__eq__`, which only
compares names. -/
theorem field_eq_ignores_primary_key :
    fieldEq { name := "id", primary_key := true } { name := "id" } = true ∧
    ({ name := "id", primary_key := true } : Field).primary_key ≠
      ({ name := "id" } : Field).primary_key := by
  decide

/-- C10 amended: equality of two column descriptors is decided by the name
alone — any two same-named descriptors are equal regardless of every other
attribute, including the primary-key flag — while the hash key is exactly
the pair `(name, primary_key)`. -/
theorem field_eq_by_name_hash_by_pair (a b : Field) :
    (fieldEq a b = true ↔ a.name = b.name) ∧
    (fieldHashKey a = fieldHashKey b ↔
      (a.name = b.name ∧ a.primary_key = b.primary_key)) := by
  constructor
  · simp [fieldEq]
  · simp [fieldHashKey, Prod.ext_iff]

end EmailingServer
